import Mathlib

/-!
Shallow embedding of the xlnx.xor-test QEMU device model
(src/hw/misc/xor-test.c) and of the generic register-bank engine it is
attached to, together with proofs of the specified register and
interrupt-level behaviour.

The device has two 32-bit registers, XDATA at byte offset 0x0 and
MATCHER at byte offset 0x4, one level-triggered interrupt output, and
three peripheral-specific hooks taken directly from the source:
`xor_test_update_irq`, `xor_test_matcher_post_write` and
`xor_test_xdata_pre_write`.  The register bank (dispatch, access-size
checks, store of the pre-write hook's return value, reset of each
register to its configured reset value) is QEMU core code that is not
part of this repository; it is modelled here from the specification's
Register Bank contract (spec §4.1).
-/

namespace XorTest

/-- Device state: the raw 32-bit registers XDATA and MATCHER (the
`regs` array of `XorTestState`, kept as naturals below `2 ^ 32`) and
the level of the interrupt output `irq` (`true` = HIGH). -/
structure XorTestState where
  xdata : Nat
  matcher : Nat
  irq : Bool
deriving Repr, DecidableEq

/-- Embedding of `xor_test_update_irq`: raise the interrupt if XDATA
equals MATCHER; otherwise leave the interrupt level unchanged. -/
def xor_test_update_irq (s : XorTestState) : XorTestState :=
  if s.xdata = s.matcher then { s with irq := true } else s

/-- Embedding of `qemu_irq_lower` applied to the device's interrupt. -/
def irq_lower (s : XorTestState) : XorTestState :=
  { s with irq := false }

/-- Embedding of `xor_test_matcher_post_write`: called by the bank
after the MATCHER register has been stored; unconditionally lowers the
interrupt, then re-runs the match check. -/
def xor_test_matcher_post_write (s : XorTestState) : XorTestState :=
  xor_test_update_irq (irq_lower s)

/-- Embedding of `xor_test_xdata_pre_write`: mutates the stored XDATA
register in place to `old XOR val64` (truncated to 32 bits by the
`uint32_t` assignment), runs the match check, and returns the value
now held in XDATA for the bank to store.  The result is the pair
(returned value, mutated state). -/
def xor_test_xdata_pre_write (s : XorTestState) (val64 : Nat) :
    Nat × XorTestState :=
  let s1 := { s with xdata := (s.xdata ^^^ val64) % 2 ^ 32 }
  let s2 := xor_test_update_irq s1
  (s2.xdata, s2)

/-- The single error kind of the bank (spec §7). -/
inductive AccessError where
  | InvalidAccess
deriving Repr, DecidableEq

/-- Modelled from the spec: the Register Bank's access validity rule
(spec §4.1, §6) — only 4-byte accesses at the configured offsets 0x00
(XDATA) and 0x04 (MATCHER) are valid.  The bank itself
(`register_read_memory` / `register_write_memory` and the
`.valid.min_access_size = .max_access_size = 4` constraint of
`xor_test_ops`) is QEMU core code not present in this repository. -/
def validAccess (off sz : Nat) : Prop :=
  sz = 4 ∧ (off = 0 ∨ off = 4)

instance (off sz : Nat) : Decidable (validAccess off sz) := by
  unfold validAccess; infer_instance

/-- Modelled from the spec: the Register Bank write entry point
(spec §4.1).  An invalid access fails with `InvalidAccess` and mutates
nothing.  A valid write to XDATA calls the configured pre-write hook
with the incoming 32-bit value and stores the hook's returned value; a
valid write to MATCHER stores the raw incoming value and then calls
the configured post-write hook.  `xor_test_regs_info` configures no
post-write hook for XDATA and no pre-write hook for MATCHER. -/
def bank_write (s : XorTestState) (off sz v : Nat) :
    Except AccessError XorTestState :=
  if validAccess off sz then
    if off = 0 then
      let r := xor_test_xdata_pre_write s (v % 2 ^ 32)
      Except.ok { r.2 with xdata := r.1 }
    else
      Except.ok (xor_test_matcher_post_write { s with matcher := v % 2 ^ 32 })
  else
    Except.error AccessError.InvalidAccess

/-- Modelled from the spec: the Register Bank read entry point
(spec §4.1).  It fails with `InvalidAccess` under the same conditions
as `bank_write`; otherwise it returns the current stored value of the
addressed register together with the (unchanged) device state.  Reads
trigger no hooks. -/
def bank_read (s : XorTestState) (off sz : Nat) :
    Except AccessError (Nat × XorTestState) :=
  if validAccess off sz then
    if off = 0 then
      Except.ok (s.xdata, s)
    else
      Except.ok (s.matcher, s)
  else
    Except.error AccessError.InvalidAccess

/-- Embedding of `xor_test_reset`: `register_reset` restores each
register to its reset value configured in `xor_test_regs_info` (XDATA
has no `.reset` field, so 0; MATCHER has `.reset = 0xffffffff`), then
the interrupt is lowered. -/
def xor_test_reset (_s : XorTestState) : XorTestState :=
  { xdata := 0, matcher := 0xffffffff, irq := false }

/-- The device state after a bus write, the error path leaving the
state untouched. -/
def doWrite (s : XorTestState) (off sz v : Nat) : XorTestState :=
  match bank_write s off sz v with
  | Except.ok s' => s'
  | Except.error _ => s

/-- The device state after a bus read, the error path leaving the
state untouched. -/
def doRead (s : XorTestState) (off sz : Nat) : XorTestState :=
  match bank_read s off sz with
  | Except.ok r => r.2
  | Except.error _ => s

/-- A valid 4-byte write to the DATA (XDATA) register. -/
def writeDATA (s : XorTestState) (v : Nat) : XorTestState :=
  doWrite s 0 4 v

/-- A valid 4-byte write to the MATCHER register. -/
def writeMATCHER (s : XorTestState) (v : Nat) : XorTestState :=
  doWrite s 4 4 v

/-- Bus-level operations on the device: writes and reads at an
arbitrary offset and size, and device reset. -/
inductive Op where
  | write (off sz v : Nat)
  | read (off sz : Nat)
  | reset
deriving Repr, DecidableEq

/-- One bus operation applied to the device state. -/
def applyOp (s : XorTestState) : Op → XorTestState
  | Op.write off sz v => doWrite s off sz v
  | Op.read off sz => doRead s off sz
  | Op.reset => xor_test_reset s

/-- Modelled from the spec: the DATA write as §4.1/§4.2 describe it —
the pre-write hook computes `new = old XOR v`, runs the match check
using `new`, and returns `new`, which the bank then stores. -/
def xdata_write_specModel (s : XorTestState) (v : Nat) : XorTestState :=
  let vin := v % 2 ^ 32
  let nv := (s.xdata ^^^ vin) % 2 ^ 32
  { xdata := nv
    matcher := s.matcher
    irq := if nv = s.matcher then true else s.irq }

/-! ### Basic component lemmas -/

theorem update_irq_xdata (s : XorTestState) :
    (xor_test_update_irq s).xdata = s.xdata := by
  unfold xor_test_update_irq; split <;> rfl

theorem update_irq_matcher (s : XorTestState) :
    (xor_test_update_irq s).matcher = s.matcher := by
  unfold xor_test_update_irq; split <;> rfl

theorem update_irq_irq (s : XorTestState) :
    (xor_test_update_irq s).irq =
      if s.xdata = s.matcher then true else s.irq := by
  unfold xor_test_update_irq; split <;> simp_all

theorem writeDATA_eq (s : XorTestState) (v : Nat) :
    writeDATA s v =
      xor_test_update_irq
        { s with xdata := (s.xdata ^^^ v % 2 ^ 32) % 2 ^ 32 } := by
  unfold writeDATA doWrite bank_write xor_test_xdata_pre_write
  simp [validAccess, xor_test_update_irq]

theorem writeMATCHER_eq (s : XorTestState) (v : Nat) :
    writeMATCHER s v =
      xor_test_update_irq
        { s with matcher := v % 2 ^ 32, irq := false } := by
  unfold writeMATCHER doWrite bank_write xor_test_matcher_post_write irq_lower
  simp [validAccess]

theorem xor_lt32 {a b : Nat} (ha : a < 2 ^ 32) (hb : b < 2 ^ 32) :
    a ^^^ b < 2 ^ 32 :=
  Nat.xor_lt_two_pow ha hb

theorem writeDATA_xdata (s : XorTestState) (v : Nat)
    (hs : s.xdata < 2 ^ 32) (hv : v < 2 ^ 32) :
    (writeDATA s v).xdata = s.xdata ^^^ v := by
  rw [writeDATA_eq, update_irq_xdata]
  show (s.xdata ^^^ v % 2 ^ 32) % 2 ^ 32 = s.xdata ^^^ v
  rw [Nat.mod_eq_of_lt hv, Nat.mod_eq_of_lt (xor_lt32 hs hv)]

theorem writeDATA_matcher (s : XorTestState) (v : Nat) :
    (writeDATA s v).matcher = s.matcher := by
  rw [writeDATA_eq, update_irq_matcher]

theorem writeDATA_irq (s : XorTestState) (v : Nat)
    (hs : s.xdata < 2 ^ 32) (hv : v < 2 ^ 32) :
    (writeDATA s v).irq =
      if s.xdata ^^^ v = s.matcher then true else s.irq := by
  rw [writeDATA_eq, update_irq_irq]
  show (if (s.xdata ^^^ v % 2 ^ 32) % 2 ^ 32 = s.matcher then true else s.irq)
      = _
  rw [Nat.mod_eq_of_lt hv, Nat.mod_eq_of_lt (xor_lt32 hs hv)]

/-! ### Claim theorems -/

/-- C1: for 32-bit values v1, v2, writing v1 then v2 to DATA leaves
DATA equal to (old DATA) XOR v1 XOR v2; after reset the two writes
yield DATA == v1 XOR v2, and a single write of v1 after reset yields
DATA == v1. -/
theorem C1_xor_accumulate (s : XorTestState) (v1 v2 : Nat)
    (hs : s.xdata < 2 ^ 32) (h1 : v1 < 2 ^ 32) (h2 : v2 < 2 ^ 32) :
    (writeDATA (writeDATA s v1) v2).xdata = s.xdata ^^^ v1 ^^^ v2 ∧
    (writeDATA (writeDATA (xor_test_reset s) v1) v2).xdata = v1 ^^^ v2 ∧
    (writeDATA (xor_test_reset s) v1).xdata = v1 := by
  have h0 : (xor_test_reset s).xdata = 0 := rfl
  have hr1 : (writeDATA (xor_test_reset s) v1).xdata = v1 := by
    rw [writeDATA_xdata (xor_test_reset s) v1 (by rw [h0]; positivity) h1, h0,
      Nat.zero_xor]
  refine ⟨?_, ?_, hr1⟩
  · rw [writeDATA_xdata (writeDATA s v1) v2 ?_ h2, writeDATA_xdata s v1 hs h1]
    rw [writeDATA_xdata s v1 hs h1]
    exact xor_lt32 hs h1
  · rw [writeDATA_xdata (writeDATA (xor_test_reset s) v1) v2 ?_ h2, hr1]
    rw [hr1]
    exact h1

/-- C2: writing a 32-bit value x to MATCHER first lowers the interrupt
level, then raises it iff x equals the current DATA value; after the
write, MATCHER == x, DATA is unchanged, and the interrupt is HIGH
exactly when DATA == x. -/
theorem C2_matcher_write (s : XorTestState) (x : Nat) (hx : x < 2 ^ 32) :
    writeMATCHER s x =
      xor_test_update_irq (irq_lower { s with matcher := x }) ∧
    (writeMATCHER s x).matcher = x ∧
    (writeMATCHER s x).xdata = s.xdata ∧
    ((writeMATCHER s x).irq = true ↔ s.xdata = x) := by
  have he : writeMATCHER s x =
      xor_test_update_irq { s with matcher := x, irq := false } := by
    rw [writeMATCHER_eq, Nat.mod_eq_of_lt hx]
  refine ⟨he, ?_, ?_, ?_⟩
  · rw [he, update_irq_matcher]
  · rw [he, update_irq_xdata]
  · rw [he, update_irq_irq]
    dsimp only
    split <;> simp_all

/-- C3: a DATA write of v with current stored value old stores
new = old XOR v and uses new for the match check: if new == MATCHER
the interrupt is raised, and if new != MATCHER the interrupt level is
left unchanged; in particular a HIGH interrupt stays HIGH across a
mismatching DATA write. -/
theorem C3_data_write_match (s : XorTestState) (v : Nat)
    (hs : s.xdata < 2 ^ 32) (hv : v < 2 ^ 32) :
    (writeDATA s v).xdata = s.xdata ^^^ v ∧
    (writeDATA s v).matcher = s.matcher ∧
    (s.xdata ^^^ v = s.matcher → (writeDATA s v).irq = true) ∧
    (s.xdata ^^^ v ≠ s.matcher → (writeDATA s v).irq = s.irq) ∧
    (s.irq = true → (writeDATA s v).irq = true) := by
  have hi := writeDATA_irq s v hs hv
  refine ⟨writeDATA_xdata s v hs hv, writeDATA_matcher s v, ?_, ?_, ?_⟩
  · intro h; rw [hi, if_pos h]
  · intro h; rw [hi, if_neg h]
  · intro h; rw [hi, h]; split <;> rfl

/-- C4: after every reset, DATA == 0, MATCHER == 0xFFFFFFFF, and the
interrupt level is LOW, regardless of the prior state. -/
theorem C4_reset_state (s : XorTestState) :
    (xor_test_reset s).xdata = 0 ∧
    (xor_test_reset s).matcher = 0xffffffff ∧
    (xor_test_reset s).irq = false :=
  ⟨rfl, rfl, rfl⟩

/-- Witness for C1 at s = (3, 7, LOW), v1 = 5, v2 = 9. -/
theorem C1_xor_accumulate_witness :
    (writeDATA (writeDATA ⟨3, 7, false⟩ 5) 9).xdata = 3 ^^^ 5 ^^^ 9 :=
  (C1_xor_accumulate ⟨3, 7, false⟩ 5 9 (by norm_num) (by norm_num)
    (by norm_num)).1

/-- Witness for C2 at s = (5, 0, LOW), x = 5. -/
theorem C2_matcher_write_witness :
    (writeMATCHER ⟨5, 0, false⟩ 5).matcher = 5 :=
  (C2_matcher_write ⟨5, 0, false⟩ 5 (by norm_num)).2.1

/-- Witness for C3 at s = (1, 3, LOW), v = 2: the new DATA value
1 XOR 2 = 3 matches MATCHER, so the interrupt is raised. -/
theorem C3_data_write_match_witness :
    (writeDATA ⟨1, 3, false⟩ 2).irq = true :=
  (C3_data_write_match ⟨1, 3, false⟩ 2 (by norm_num)
    (by norm_num)).2.2.1 (by decide)

/-- C5: in any step of the interrupt state machine, the level goes
LOW-to-HIGH only through the match check — afterwards DATA == MATCHER,
and the step was a valid DATA or MATCHER write — and goes HIGH-to-LOW
only through a valid MATCHER write or a device reset. -/
theorem C5_irq_transitions (s : XorTestState) (op : Op) :
    (s.irq = false → (applyOp s op).irq = true →
      (applyOp s op).xdata = (applyOp s op).matcher ∧
      ((∃ x, op = Op.write 0 4 x) ∨ (∃ x, op = Op.write 4 4 x))) ∧
    (s.irq = true → (applyOp s op).irq = false →
      ((∃ x, op = Op.write 4 4 x) ∨ op = Op.reset)) := by
  cases op with
  | write off sz v =>
    by_cases hva : validAccess off sz
    · obtain ⟨hsz, hoff⟩ := hva
      subst hsz
      rcases hoff with h0 | h4
      · subst h0
        have he : applyOp s (Op.write 0 4 v) =
            xor_test_update_irq
              { s with xdata := (s.xdata ^^^ v % 2 ^ 32) % 2 ^ 32 } :=
          writeDATA_eq s v
        rw [he, update_irq_irq, update_irq_xdata, update_irq_matcher]
        constructor
        · intro h1 h2
          dsimp only at h2 ⊢
          rw [h1] at h2
          split at h2
          · exact ⟨by assumption, Or.inl ⟨v, rfl⟩⟩
          · exact absurd h2 (by simp)
        · intro h1 h2
          dsimp only at h2
          rw [h1] at h2
          split at h2 <;> simp_all
      · subst h4
        have he : applyOp s (Op.write 4 4 v) =
            xor_test_update_irq { s with matcher := v % 2 ^ 32, irq := false } :=
          writeMATCHER_eq s v
        rw [he, update_irq_irq, update_irq_xdata, update_irq_matcher]
        constructor
        · intro h1 h2
          dsimp only at h2 ⊢
          split at h2
          · exact ⟨by assumption, Or.inr ⟨v, rfl⟩⟩
          · exact absurd h2 (by simp)
        · intro h1 h2
          exact Or.inl ⟨v, rfl⟩
    · have he : applyOp s (Op.write off sz v) = s := by
        show doWrite s off sz v = s
        unfold doWrite bank_write
        rw [if_neg hva]
      rw [he]
      exact ⟨fun h1 h2 => absurd (h1 ▸ h2) (by simp),
        fun h1 h2 => absurd (h1 ▸ h2) (by simp)⟩
  | read off sz =>
    have he : applyOp s (Op.read off sz) = s := by
      show doRead s off sz = s
      unfold doRead bank_read
      by_cases hva : validAccess off sz
      · rw [if_pos hva]
        by_cases h0 : off = 0
        · rw [if_pos h0]
        · rw [if_neg h0]
      · rw [if_neg hva]
    rw [he]
    exact ⟨fun h1 h2 => absurd (h1 ▸ h2) (by simp),
      fun h1 h2 => absurd (h1 ▸ h2) (by simp)⟩
  | reset =>
    exact ⟨fun _ h2 => absurd h2 (by simp [applyOp, xor_test_reset]),
      fun _ _ => Or.inr rfl⟩

/-- Witness for C5: a DATA write of 5 on state (0, 5, LOW) raises the
interrupt and leaves DATA == MATCHER; a reset on state (5, 5, HIGH)
lowers it. -/
theorem C5_irq_transitions_witness :
    ((applyOp ⟨0, 5, false⟩ (Op.write 0 4 5)).xdata =
        (applyOp ⟨0, 5, false⟩ (Op.write 0 4 5)).matcher ∧
      ((∃ x, Op.write 0 4 5 = Op.write 0 4 x) ∨
        (∃ x, Op.write 0 4 5 = Op.write 4 4 x))) ∧
    ((∃ x, (Op.reset : Op) = Op.write 4 4 x) ∨ (Op.reset : Op) = Op.reset) :=
  ⟨(C5_irq_transitions ⟨0, 5, false⟩ (Op.write 0 4 5)).1 rfl (by decide),
   (C5_irq_transitions ⟨5, 5, true⟩ Op.reset).2 rfl (by decide)⟩

/-- C6: an access with size other than 4 bytes or an offset outside
the two configured registers fails with InvalidAccess and mutates
neither the registers nor the interrupt level. -/
theorem C6_invalid_access (s : XorTestState) (off sz v : Nat)
    (h : sz ≠ 4 ∨ (off ≠ 0 ∧ off ≠ 4)) :
    bank_write s off sz v = Except.error AccessError.InvalidAccess ∧
    bank_read s off sz = Except.error AccessError.InvalidAccess ∧
    doWrite s off sz v = s ∧
    doRead s off sz = s := by
  have hva : ¬ validAccess off sz := by
    unfold validAccess; tauto
  refine ⟨?_, ?_, ?_, ?_⟩ <;>
    simp [bank_write, bank_read, doWrite, doRead, hva]

/-- Witness for C6: a 4-byte access at offset 8 (past MATCHER) is
invalid. -/
theorem C6_invalid_access_witness :
    bank_write ⟨0, 0, false⟩ 8 4 1 = Except.error AccessError.InvalidAccess :=
  (C6_invalid_access ⟨0, 0, false⟩ 8 4 1
    (Or.inr ⟨by norm_num, by norm_num⟩)).1

/-- C7: a valid read returns the current stored value of the addressed
register with the state untouched (no hook runs), and a read fails
with InvalidAccess exactly when a write at the same offset and size
would. -/
theorem C7_read_frame (s : XorTestState) (off sz v : Nat) :
    (sz = 4 → off = 0 → bank_read s off sz = Except.ok (s.xdata, s)) ∧
    (sz = 4 → off = 4 → bank_read s off sz = Except.ok (s.matcher, s)) ∧
    (bank_read s off sz = Except.error AccessError.InvalidAccess ↔
      bank_write s off sz v = Except.error AccessError.InvalidAccess) := by
  by_cases hva : validAccess off sz
  · obtain ⟨hsz, hoff⟩ := hva
    subst hsz
    refine ⟨?_, ?_, ?_⟩
    · intro _ h0
      subst h0
      simp [bank_read, validAccess]
    · intro _ h4
      subst h4
      simp [bank_read, validAccess]
    · rcases hoff with h0 | h4
      · subst h0; simp [bank_read, bank_write, validAccess]
      · subst h4; simp [bank_read, bank_write, validAccess]
  · refine ⟨?_, ?_, ?_⟩
    · intro hsz h0
      exact absurd ⟨hsz, Or.inl h0⟩ hva
    · intro hsz h4
      exact absurd ⟨hsz, Or.inr h4⟩ hva
    · simp [bank_read, bank_write, hva]

/-- Witness for C7: reading DATA on state (1, 2, LOW) returns 1 and
the unchanged state. -/
theorem C7_read_frame_witness :
    bank_read ⟨1, 2, false⟩ 0 4 = Except.ok (1, ⟨1, 2, false⟩) :=
  (C7_read_frame ⟨1, 2, false⟩ 0 4 0).1 rfl rfl

/-- C8: reset is idempotent — resetting twice in succession produces
the same state as resetting once. -/
theorem C8_reset_idempotent (s : XorTestState) :
    xor_test_reset (xor_test_reset s) = xor_test_reset s :=
  rfl

/-- C9: writing the same 32-bit value v to DATA twice in succession
restores DATA to the value held before the two writes. -/
theorem C9_double_write (s : XorTestState) (v : Nat)
    (hs : s.xdata < 2 ^ 32) (hv : v < 2 ^ 32) :
    (writeDATA (writeDATA s v) v).xdata = s.xdata := by
  have h1 : (writeDATA s v).xdata = s.xdata ^^^ v := writeDATA_xdata s v hs hv
  rw [writeDATA_xdata (writeDATA s v) v (h1 ▸ xor_lt32 hs hv) hv, h1,
    Nat.xor_cancel_right]

/-- Witness for C9 at s = (9, 1, LOW), v = 6. -/
theorem C9_double_write_witness :
    (writeDATA (writeDATA ⟨9, 1, false⟩ 6) 6).xdata = 9 :=
  C9_double_write ⟨9, 1, false⟩ 6 (by norm_num) (by norm_num)

/-- C10: the in-place-mutating DATA pre-write hook followed by the
bank's store of the hook's returned value produces exactly the state
described by the spec's pre-write contract (compute new = old XOR v,
run the match check on new, store new). -/
theorem C10_prewrite_refinement (s : XorTestState) (v : Nat) :
    writeDATA s v = xdata_write_specModel s v := by
  rw [writeDATA_eq]
  unfold xor_test_update_irq xdata_write_specModel
  dsimp only
  split <;> simp_all

end XorTest
